import Mathlib

/-!
Shallow embedding of the `radarly-py` client core:
`src/radarly/api.py` (URL normalization, error-response parsing, the
request dispatch loop with its expired-token refresh-and-retry path,
`authenticate` and `refresh`) and
`src/radarly/utils/_internal.py` (`CallableDict`).

Strings are modelled by Lean `String` working through `List Char`;
machine state is passed explicitly; network I/O is modelled by handing
each operation the responses the environment would produce, together
with an event trace recording rate-limit checks and network calls.
The `RateLimit` class (module `radarly.rate`) is not part of the given
sources, so its two operations are modelled from the spec; those
definitions say so in their doc comments.
-/

namespace Radarly

/-- A Python value as it occurs in the dictionaries handled by the
client: strings, integers, or a list of strings (the result of an
`lxml` xpath text query). -/
inductive PyVal where
  | str : String → PyVal
  | int : Int → PyVal
  | strList : List String → PyVal
deriving DecidableEq, Repr

/-- Python `list.startswith`-style prefix test on character lists,
mirroring `str.startswith`. -/
def listIsPrefixOf : List Char → List Char → Bool
  | [], _ => true
  | _ :: _, [] => false
  | a :: as, b :: bs => if a = b then listIsPrefixOf as bs else false

/-- Python substring containment (`pat in s`) on character lists: some
position of the haystack starts with the pattern. -/
def listContains : List Char → List Char → Bool
  | [], pat => listIsPrefixOf pat []
  | c :: tl, pat => listIsPrefixOf pat (c :: tl) || listContains tl pat

/-- Python `s.strip('/')`: remove every leading and trailing `'/'`. -/
def stripSlashes (s : List Char) : List Char :=
  ((s.dropWhile (· = '/')).reverse.dropWhile (· = '/')).reverse

/-- String-level wrapper of `listIsPrefixOf`. -/
def strIsPrefixOf (pat s : String) : Bool :=
  listIsPrefixOf pat.toList s.toList

/-- String-level wrapper of `listContains`. -/
def strContains (s pat : String) : Bool :=
  listContains s.toList pat.toList

/-- String-level wrapper of `stripSlashes`. -/
def stripSlashesStr (s : String) : String :=
  String.mk (stripSlashes s.toList)

/-- `RadarlyApi.root_url`. -/
def rootUrl : String := "https://radarly.linkfluence.com"

/-- `RadarlyApi.login_url`. -/
def loginUrl : String := "https://oauth.linkfluence.com/oauth2/token"

/-- `RadarlyApi.version`. -/
def apiVersion : String := "1.0"

/-- URL normalization of `RadarlyApi.request` (api.py lines 207-214):
strip `'/'` from both ends; if the version is non-empty and the url
starts with neither the version nor the root url, put the version in
front; finally, if the url does not contain the root url, put the root
url in front. -/
def normalizeUrlChars (version root url : List Char) : List Char :=
  let u1 := stripSlashes url
  let u2 := if !version.isEmpty && !listIsPrefixOf version u1 && !listIsPrefixOf root u1
            then version ++ '/' :: u1 else u1
  if listContains u2 root then u2 else root ++ '/' :: u2

/-- String-level wrapper of `normalizeUrlChars`. -/
def normalizeUrl (version root url : String) : String :=
  String.mk (normalizeUrlChars version.toList root.toList url.toList)

/-- Response headers as the client reads them: the `Content-Type`
header (empty string when absent, matching `headers.get('Content-Type',
'')`), and the vendor rate headers giving current and maximum usage. -/
structure Headers where
  contentType : String
  used : Option Nat
  max : Option Nat
deriving DecidableEq, Repr

/-- An HTTP response to a resource call, pre-parsed: status code,
headers, the two xpath query results the HTML error branch reads
(`//title/text()` and `//p[@id='detail']/text()`), and the key/value
pairs of the JSON body. -/
structure Response where
  status : Nat
  headers : Headers
  titleTexts : List String
  detailTexts : List String
  jsonFields : List (String × PyVal)
deriving DecidableEq, Repr

/-- A response from the OAuth2 token endpoint: status plus the fields
`authenticate`/`refresh` read from its JSON body via `.get`. -/
structure TokenResponse where
  status : Nat
  scope : Option String
  access_token : Option String
  refresh_token : Option String
deriving DecidableEq, Repr

/-- Python dict lookup on an association list where later entries
override earlier ones (the semantics of building a dict by successive
assignment and `update`). -/
def dget (d : List (String × PyVal)) (k : String) : Option PyVal :=
  d.foldl (fun acc p => if p.1 = k then some p.2 else acc) none

/-- `requests.Response.raise_for_status` raises `HTTPError` exactly for
status codes in `[400, 600)`. -/
def isHTTPError (status : Nat) : Bool :=
  400 ≤ status && status < 600

/-- `_parse_error_response` (api.py lines 33-57): always records the
status code as `error_code`; for `text/html` stores the full xpath
title-text list under `error_type` and the first detail-paragraph text
(or `''`) under `error_message`; for `application/json` merges the JSON
body in; any other content type adds nothing. -/
def parseErrorResponse (r : Response) : List (String × PyVal) :=
  if r.headers.contentType = "text/html" then
    [("error_code", PyVal.int r.status),
     ("error_type", PyVal.strList r.titleTexts),
     ("error_message", PyVal.str (r.detailTexts.headD ""))]
  else if r.headers.contentType = "application/json" then
    ("error_code", PyVal.int r.status) :: r.jsonFields
  else
    [("error_code", PyVal.int r.status)]

/-- The exceptions the embedded operations can raise. -/
inductive Exn where
  | rateReached
  | badAuthentication
  | httpError : Nat → Exn
deriving DecidableEq, Repr

/-- The `RadarlyAuth` object stored in `_auth`: it wraps the access
token it was built from (which `authenticate`/`refresh` may have read
as `None` from the token response). -/
structure RadarlyAuth where
  token : Option String
deriving DecidableEq, Repr

/-- The mutable state of a `RadarlyApi` instance: credentials, tokens,
scope, the autorefresh flag, an abstract last-refresh timestamp, the
`_auth` object, and the rate tracker's per-endpoint remaining counts. -/
structure ApiState where
  client_id : String
  client_secret : String
  access_token : Option String
  refresh_token : Option String
  scope : List String
  autorefresh : Bool
  last_refresh : Nat
  auth : Option RadarlyAuth
  rates : List (String × Int)
deriving DecidableEq, Repr

/-- Look an endpoint up in the rate tracker. -/
def lookupRate : List (String × Int) → String → Option Int
  | [], _ => none
  | (k, v) :: tl, u => if k = u then some v else lookupRate tl u

/-- Overwrite (or create) the remaining count of one endpoint. -/
def setRate : List (String × Int) → String → Int → List (String × Int)
  | [], u, n => [(u, n)]
  | (k, v) :: tl, u, n => if k = u then (u, n) :: tl else (k, v) :: setRate tl u n

/-- Modelled from the spec: `RateLimit.is_reached` (module
`radarly.rate`, not among the given sources). The spec says the
dispatcher checks whether the tracked remaining count for the target
endpoint is zero; an endpoint never seen has no tracked count and is
not reached. -/
def isReached (rates : List (String × Int)) (url : String) : Bool :=
  match lookupRate rates url with
  | some n => n = 0
  | none => false

/-- Modelled from the spec: `RateLimit.update` (module `radarly.rate`,
not among the given sources). After every response the counter is
overwritten from the vendor headers carrying current and maximum usage
(a pair used=5, max=10 must leave 5 remaining); when the response
carries no such header pair the tracker is unchanged. -/
def ratesUpdate (rates : List (String × Int)) (url : String) (h : Headers) :
    List (String × Int) :=
  match h.used, h.max with
  | some u, some m => setRate rates url ((m : Int) - (u : Int))
  | _, _ => rates

/-- `RadarlyApi.authenticate` (api.py lines 281-317): POST the
credential grant to the login url; a `raise_for_status` failure becomes
`BadAuthentication` before any field is written; on success scope,
both tokens and `_auth` are replaced. Returns the state after the call
together with the exception it raises, if any. -/
def authenticate (st : ApiState) (resp : TokenResponse) : ApiState × Option Exn :=
  if isHTTPError resp.status then
    (st, some Exn.badAuthentication)
  else
    ({ st with
        scope := ((resp.scope.getD "").splitOn " "),
        access_token := resp.access_token,
        refresh_token := resp.refresh_token,
        auth := some ⟨resp.access_token⟩ }, none)

/-- `RadarlyApi.refresh` (api.py lines 319-342): POST the refresh grant
to the login url and, without any status check, replace both tokens and
`_auth` from the response body and set `last_refresh` to the current
time. `now` stands for `datetime.now()`. -/
def refresh (st : ApiState) (resp : TokenResponse) (now : Nat) : ApiState :=
  { st with
      access_token := resp.access_token,
      refresh_token := resp.refresh_token,
      auth := some ⟨resp.access_token⟩,
      last_refresh := now }

/-- Trace events of one `request` call: the rate-limit check, and the
three kinds of network calls (credential grant, refresh grant, resource
call). -/
inductive Event where
  | rateCheck : String → Event
  | authCall : Event
  | refreshCall : Event
  | resourceCall : String → String → Event
deriving DecidableEq, Repr

/-- Every event except the rate-limit check is a network call. -/
def isNetworkEvent : Event → Bool
  | Event.rateCheck _ => false
  | _ => true

/-- The environment of one `request` call: the token response used if
the client still has to authenticate, the response to the first
resource call, and - for the expired-token path - the refresh response,
the response to the retried call, and the refresh timestamp. -/
structure RequestEnv where
  authResp : TokenResponse
  firstResp : Response
  refreshResp : TokenResponse
  retryResp : Response
  time : Nat
deriving DecidableEq, Repr

/-- The body of `RadarlyApi.request` after authentication (api.py lines
222-240), over the already normalized url: raise `RateReached` when the
tracker reports the endpoint exhausted; otherwise send the call; on an
HTTP error parse the error body and, when its `error_type` equals
`'ExpiredTokenException'` and autorefresh is on, refresh once and retry
once, a failing retry raising its own HTTP error; any other HTTP error
is re-raised as-is; on success overwrite the rate counter from the
response headers. Produces the result, the final state and the event
trace (appended to `ev`). -/
def requestCore (st : ApiState) (verb nurl : String) (env : RequestEnv)
    (ev : List Event) : Except Exn Response × ApiState × List Event :=
  if isReached st.rates nurl then
    (Except.error Exn.rateReached, st, ev ++ [Event.rateCheck nurl])
  else if isHTTPError env.firstResp.status then
    if (dget (parseErrorResponse env.firstResp) "error_type").getD (PyVal.str "")
         = PyVal.str "ExpiredTokenException" ∧ st.autorefresh = true then
      let st2 := refresh st env.refreshResp env.time
      if isHTTPError env.retryResp.status then
        (Except.error (Exn.httpError env.retryResp.status), st2,
         ev ++ [Event.rateCheck nurl, Event.resourceCall verb nurl,
                Event.refreshCall, Event.resourceCall verb nurl])
      else
        (Except.ok env.retryResp,
         { st2 with rates := ratesUpdate st2.rates nurl env.retryResp.headers },
         ev ++ [Event.rateCheck nurl, Event.resourceCall verb nurl,
                Event.refreshCall, Event.resourceCall verb nurl])
    else
      (Except.error (Exn.httpError env.firstResp.status), st,
       ev ++ [Event.rateCheck nurl, Event.resourceCall verb nurl])
  else
    (Except.ok env.firstResp,
     { st with rates := ratesUpdate st.rates nurl env.firstResp.headers },
     ev ++ [Event.rateCheck nurl, Event.resourceCall verb nurl])

/-- `RadarlyApi.request` (api.py lines 190-240): normalize the url,
authenticate first when `_auth` is still `None` (a failing
authentication propagates `BadAuthentication`), then run the dispatch
body `requestCore`. -/
def request (st : ApiState) (verb url : String) (env : RequestEnv) :
    Except Exn Response × ApiState × List Event :=
  match st.auth with
  | some _ => requestCore st verb (normalizeUrl apiVersion rootUrl url) env []
  | none =>
    match authenticate st env.authResp with
    | (st1, some e) => (Except.error e, st1, [Event.authCall])
    | (st1, none) =>
      requestCore st1 verb (normalizeUrl apiVersion rootUrl url) env [Event.authCall]

/-- The `'focus_'` removal of `CallableDict.__getitem__`
(_internal.py line 39): Python `str.replace('focus_', '')` deletes
every non-overlapping occurrence, scanning left to right. -/
def removeFocus : List Char → List Char
  | 'f' :: 'o' :: 'c' :: 'u' :: 's' :: '_' :: rest => removeFocus rest
  | c :: rest => c :: removeFocus rest
  | [] => []

/-- The lookup key normalization of `CallableDict.__getitem__`:
`str(key).replace('focus_', '')`. Keys are modelled as the strings they
have already been converted to (`str` is the identity on strings, and
`__init__` stores keys through `str` as well). -/
def cdNormalize (key : String) : String :=
  String.mk (removeFocus key.toList)

/-- `CallableDict.__getitem__` (_internal.py lines 38-40): normalize
the key, then look it up; a miss falls through to `__missing__`
(lines 35-36), which returns the (already normalized) key itself as a
string. The dict is an association list where later entries override
earlier ones, matching how `__init__` builds it by `update`. -/
def cdGetitem (d : List (String × PyVal)) (key : String) : PyVal :=
  match dget d (cdNormalize key) with
  | some v => v
  | none => PyVal.str (cdNormalize key)

/-- `CallableDict.__call__` (_internal.py lines 42-43): a proxy for
`__getitem__`. -/
def cdCall (d : List (String × PyVal)) (key : String) : PyVal :=
  cdGetitem d key

/-- Modelled from the spec for comparison only (refinement target of
the aliasing claim): a lookup whose key normalization strips a single
leading `'focus_'` prefix, which is what the spec sentence describes.
`CallableDict` itself is `cdGetitem`. -/
def cdGetitemPrefixSpec (d : List (String × PyVal)) (key : String) : PyVal :=
  let k := if listIsPrefixOf "focus_".toList key.toList
           then String.mk (key.toList.drop 6) else key
  match dget d k with
  | some v => v
  | none => PyVal.str k

/-- One operation a caller can perform on a client, with the
environment responses it consumes. -/
inductive Op where
  | doRequest : String → String → RequestEnv → Op
  | doAuthenticate : TokenResponse → Op
  | doRefresh : TokenResponse → Nat → Op

/-- The state transition of one operation (exceptions and results
dropped, only the state kept). -/
def applyOp (st : ApiState) : Op → ApiState
  | Op.doRequest v u env => (request st v u env).2.1
  | Op.doAuthenticate r => (authenticate st r).1
  | Op.doRefresh r t => refresh st r t

/-- Run a sequence of operations from a state. -/
def runOps (st : ApiState) : List Op → ApiState
  | [] => st
  | op :: tl => runOps (applyOp st op) tl

/-- A header pair is consistent when the current usage does not exceed
the maximum (whenever both are present). -/
def headersWF (h : Headers) : Bool :=
  match h.used, h.max with
  | some u, some m => u ≤ m
  | _, _ => true

/-- An operation is well-formed when every rate header pair it can feed
into the tracker is consistent. -/
def opWF : Op → Bool
  | Op.doRequest _ _ env => headersWF env.firstResp.headers && headersWF env.retryResp.headers
  | _ => true

/-- All tracked remaining counts are non-negative. -/
def ratesNonneg (rates : List (String × Int)) : Bool :=
  rates.all (fun p => 0 ≤ p.2)

/-- The event is the rate-limit check. -/
def isRateCheckEv : Event → Bool
  | Event.rateCheck _ => true
  | _ => false

/-- The event is a resource call. -/
def isResourceCallEv : Event → Bool
  | Event.resourceCall _ _ => true
  | _ => false

/-- A client that already holds a token (so `_auth` is set). -/
def stAuthed : ApiState :=
  { client_id := "id", client_secret := "secret", access_token := some "tok",
    refresh_token := some "ref", scope := ["listening"], autorefresh := true,
    last_refresh := 0, auth := some ⟨some "tok"⟩, rates := [] }

/-- Headers of a plain JSON response without rate information. -/
def jsonHeaders : Headers := ⟨"application/json", none, none⟩

/-- A JSON error response carrying the vendor expired-token type. -/
def expiredResp : Response :=
  ⟨403, jsonHeaders, [], [], [("error_type", PyVal.str "ExpiredTokenException")]⟩

/-- A successful response whose headers say 5 of 10 requests used. -/
def okResp : Response := ⟨200, ⟨"application/json", some 5, some 10⟩, [], [], []⟩

/-- A plain server error that is not an expired-token error. -/
def serverErrResp : Response := ⟨500, jsonHeaders, [], [], []⟩

/-- The HTML error response of the error-parsing claim. -/
def htmlErrResp : Response :=
  ⟨404, ⟨"text/html", none, none⟩, ["Not Found"], ["no such resource"], []⟩

/-- A successful token-endpoint response. -/
def tokOk : TokenResponse := ⟨200, some "listening", some "t2", some "r2"⟩

/-- A rejected token-endpoint response. -/
def tokBad : TokenResponse := ⟨401, none, none, none⟩

/-- Environment: first call expired, the retried call fails again. -/
def envExpiredRetryFail : RequestEnv := ⟨tokOk, expiredResp, tokOk, expiredResp, 7⟩

/-- Environment: first call expired, the retried call succeeds. -/
def envExpiredRetryOk : RequestEnv := ⟨tokOk, expiredResp, tokOk, okResp, 7⟩

/-- Environment: the first call fails with a non-expired-token error. -/
def envPlainErr : RequestEnv := ⟨tokOk, serverErrResp, tokOk, okResp, 7⟩

/-- Environment: the first call succeeds. -/
def envOk : RequestEnv := ⟨tokOk, okResp, tokOk, okResp, 7⟩

/-- A rate tracker with the quota for the normalized url of `"p"`
exhausted. -/
def reachedRates : List (String × Int) :=
  [(normalizeUrl apiVersion rootUrl "p", 0)]

/-- An authenticated client whose quota for `"p"` is exhausted. -/
def stReachedAuthed : ApiState := { stAuthed with rates := reachedRates }

/-- A client that has not authenticated yet and whose quota for `"p"`
is exhausted. -/
def stUnauthReached : ApiState := { stAuthed with auth := none, rates := reachedRates }

/-- C3: authenticating against a token endpoint that rejects the
credentials with an HTTP error raises `BadAuthentication` and leaves
the whole client state - tokens, scope and the `_auth` object -
unchanged. -/
theorem C3_bad_authentication_no_token (st : ApiState) (resp : TokenResponse)
    (h : isHTTPError resp.status = true) :
    (authenticate st resp).2 = some Exn.badAuthentication ∧
    (authenticate st resp).1 = st := by
  simp [authenticate, h]

/-- C3 witness: the theorem applied to a concrete client and a 401
token response. -/
theorem C3_bad_authentication_no_token_witness :
    isHTTPError tokBad.status = true ∧
    ((authenticate stAuthed tokBad).2 = some Exn.badAuthentication ∧
     (authenticate stAuthed tokBad).1 = stAuthed) :=
  ⟨by decide, C3_bad_authentication_no_token stAuthed tokBad (by decide)⟩

/-- C7: refresh replaces both tokens with the values of the
token-endpoint response and resets the last-refresh timestamp, while
the client credentials stay unchanged. -/
theorem C7_refresh_replaces_tokens (st : ApiState) (resp : TokenResponse) (now : Nat) :
    (refresh st resp now).access_token = resp.access_token ∧
    (refresh st resp now).refresh_token = resp.refresh_token ∧
    (refresh st resp now).last_refresh = now ∧
    (refresh st resp now).client_id = st.client_id ∧
    (refresh st resp now).client_secret = st.client_secret :=
  ⟨rfl, rfl, rfl, rfl, rfl⟩

/-- C4 counterexample: on the HTML error body with title `Not Found`,
the parsed `error_type` is the one-element list of title texts, not
the plain string `Not Found` the claim states. -/
theorem C4_error_type_is_list_counterexample :
    dget (parseErrorResponse htmlErrResp) "error_type" ≠ some (PyVal.str "Not Found") ∧
    dget (parseErrorResponse htmlErrResp) "error_type" = some (PyVal.strList ["Not Found"]) := by
  decide

/-- C4 (amended): parsing a `text/html` error response whose title
texts are `["Not Found"]` and whose detail texts are
`["no such resource"]` yields `error_type` equal to the singleton list
`["Not Found"]`, `error_message` equal to `"no such resource"` and
`error_code` equal to the status code. -/
theorem C4_html_error_parsing (r : Response)
    (hct : r.headers.contentType = "text/html")
    (ht : r.titleTexts = ["Not Found"])
    (hd : r.detailTexts = ["no such resource"]) :
    dget (parseErrorResponse r) "error_type" = some (PyVal.strList ["Not Found"]) ∧
    dget (parseErrorResponse r) "error_message" = some (PyVal.str "no such resource") ∧
    dget (parseErrorResponse r) "error_code" = some (PyVal.int r.status) := by
  obtain ⟨status, hdrs, tt, dt, jf⟩ := r
  obtain ⟨ct, u, m⟩ := hdrs
  simp only at hct ht hd
  subst hct ht hd
  exact ⟨rfl, rfl, rfl⟩

/-- C4 witness: the amended theorem applied to the concrete HTML 404
response. -/
theorem C4_html_error_parsing_witness :
    htmlErrResp.headers.contentType = "text/html" ∧
    (dget (parseErrorResponse htmlErrResp) "error_type" = some (PyVal.strList ["Not Found"]) ∧
     dget (parseErrorResponse htmlErrResp) "error_message" = some (PyVal.str "no such resource") ∧
     dget (parseErrorResponse htmlErrResp) "error_code" = some (PyVal.int htmlErrResp.status)) :=
  ⟨rfl, C4_html_error_parsing htmlErrResp rfl rfl rfl⟩

/-- C9 counterexample: `CallableDict` lookup removes every occurrence
of `focus_`, not only a leading prefix: on the dict
`{'afocus_b': 1}` the key `'afocus_b'` misses (the search key becomes
`'ab'`), while the prefix-stripping lookup described by the claim
would find the stored value. -/
theorem C9_replace_not_prefix_counterexample :
    cdGetitem [("afocus_b", PyVal.int 1)] "afocus_b" ≠
      cdGetitemPrefixSpec [("afocus_b", PyVal.int 1)] "afocus_b" ∧
    cdGetitem [("afocus_b", PyVal.int 1)] "afocus_b" = PyVal.str "ab" := by
  decide

/-- C9 (amended): `__getitem__` removes every occurrence of `focus_`
from the stringified key before searching; consequently, for every
dict and every key, looking up `'focus_' + key` gives the same result
as looking up `key`. -/
theorem C9_focus_aliasing (d : List (String × PyVal)) (X : String) :
    cdGetitem d ("focus_" ++ X) = cdGetitem d X := by
  have hnorm : cdNormalize ("focus_" ++ X) = cdNormalize X := by
    have hl : ("focus_" ++ X).toList = 'f' :: 'o' :: 'c' :: 'u' :: 's' :: '_' :: X.toList := by
      cases X
      rfl
    simp [cdNormalize, hl, removeFocus]
  simp [cdGetitem, hnorm]

/-- C10: `CallableDict` lookup is total: a key whose normalized form is
absent from the dict yields that normalized key itself as a string,
and calling the dict is exactly `__getitem__`. -/
theorem C10_lookup_total (d : List (String × PyVal)) (key : String)
    (h : dget d (cdNormalize key) = none) :
    cdGetitem d key = PyVal.str (cdNormalize key) ∧
    cdCall d key = cdGetitem d key := by
  refine ⟨?_, rfl⟩
  simp [cdGetitem, h]

/-- C10 witness: the theorem applied to the dict `{'a': 2}` and the
missing key `'focus_b'`. -/
theorem C10_lookup_total_witness :
    dget [("a", PyVal.int 2)] (cdNormalize "focus_b") = none ∧
    (cdGetitem [("a", PyVal.int 2)] "focus_b" = PyVal.str (cdNormalize "focus_b") ∧
     cdCall [("a", PyVal.int 2)] "focus_b" = cdGetitem [("a", PyVal.int 2)] "focus_b") :=
  ⟨by decide, C10_lookup_total [("a", PyVal.int 2)] "focus_b" (by decide)⟩

theorem listIsPrefixOf_contains {pat l : List Char}
    (h : listIsPrefixOf pat l = true) : listContains l pat = true := by
  cases l <;> simp [listContains, h]

theorem contains_false_not_prefixOf {pat l : List Char}
    (h : listContains l pat = false) : listIsPrefixOf pat l = false := by
  cases hp : listIsPrefixOf pat l
  · rfl
  · rw [listIsPrefixOf_contains hp] at h
    cases h

theorem contains_root_vslash (l : List Char)
    (h : listContains l rootUrl.toList = false) :
    listContains ('1' :: '.' :: '0' :: '/' :: l) rootUrl.toList = false := by
  have h0 : listContains l rootUrl.data = false := h
  have h1 : listIsPrefixOf rootUrl.data ('1' :: '.' :: '0' :: '/' :: l) = false := rfl
  have h2 : listIsPrefixOf rootUrl.data ('.' :: '0' :: '/' :: l) = false := rfl
  have h3 : listIsPrefixOf rootUrl.data ('0' :: '/' :: l) = false := rfl
  have h4 : listIsPrefixOf rootUrl.data ('/' :: l) = false := rfl
  simp [listContains, h0, h1, h2, h3, h4]

/-- C6 counterexample: a url that contains the root url without
starting with it (after stripping) is not sent as-is - the version
prefix is still attached. -/
theorem C6_contains_root_counterexample :
    strContains (stripSlashesStr "x/https://radarly.linkfluence.com") rootUrl = true ∧
    normalizeUrl apiVersion rootUrl "x/https://radarly.linkfluence.com" ≠
      stripSlashesStr "x/https://radarly.linkfluence.com" ∧
    normalizeUrl apiVersion rootUrl "x/https://radarly.linkfluence.com" =
      "1.0/x/https://radarly.linkfluence.com" := by
  decide

/-- C6 (amended): after stripping `'/'` from both ends, a url that does
not contain the root url is prefixed by the version (unless it already
starts with the version) and then by the root url; a url that starts
with the root url is sent as-is; a url merely containing (but not
starting with) the root url keeps the root-url prefix off but may still
receive the version prefix. -/
theorem C6_url_normalization (url : List Char) :
    (listContains (stripSlashes url) rootUrl.toList = false →
      normalizeUrlChars apiVersion.toList rootUrl.toList url =
        rootUrl.toList ++ '/' ::
          (if listIsPrefixOf apiVersion.toList (stripSlashes url) = true
           then stripSlashes url
           else apiVersion.toList ++ '/' :: stripSlashes url)) ∧
    (listIsPrefixOf rootUrl.toList (stripSlashes url) = true →
      normalizeUrlChars apiVersion.toList rootUrl.toList url = stripSlashes url) := by
  have hne : ¬ apiVersion.data = ([] : List Char) := by decide
  constructor
  · intro h
    have h' : listContains (stripSlashes url) rootUrl.data = false := h
    have hroot : listIsPrefixOf rootUrl.data (stripSlashes url) = false :=
      contains_false_not_prefixOf h
    cases hver : listIsPrefixOf apiVersion.toList (stripSlashes url)
    · have hver' : listIsPrefixOf apiVersion.data (stripSlashes url) = false := hver
      have hnc : listContains (apiVersion.data ++ '/' :: stripSlashes url)
          rootUrl.data = false :=
        contains_root_vslash (stripSlashes url) h
      simp [normalizeUrlChars, hne, hver', hroot, hnc, h']
    · have hver' : listIsPrefixOf apiVersion.data (stripSlashes url) = true := hver
      simp [normalizeUrlChars, hver', h']
  · intro h
    have h' : listIsPrefixOf rootUrl.data (stripSlashes url) = true := h
    have hc : listContains (stripSlashes url) rootUrl.data = true :=
      listIsPrefixOf_contains h
    simp [normalizeUrlChars, h', hc]

/-- C6 witness: the amended theorem applied to a relative url and to an
absolute url. -/
theorem C6_url_normalization_witness :
    (listContains (stripSlashes "/projects/".toList) rootUrl.toList = false ∧
     normalizeUrlChars apiVersion.toList rootUrl.toList "/projects/".toList =
       rootUrl.toList ++ '/' ::
         (if listIsPrefixOf apiVersion.toList (stripSlashes "/projects/".toList) = true
          then stripSlashes "/projects/".toList
          else apiVersion.toList ++ '/' :: stripSlashes "/projects/".toList)) ∧
    (listIsPrefixOf rootUrl.toList
        (stripSlashes "https://radarly.linkfluence.com/1.0/projects".toList) = true ∧
     normalizeUrlChars apiVersion.toList rootUrl.toList
        "https://radarly.linkfluence.com/1.0/projects".toList =
       stripSlashes "https://radarly.linkfluence.com/1.0/projects".toList) :=
  ⟨⟨by decide, (C6_url_normalization "/projects/".toList).1 (by decide)⟩,
   ⟨by decide, (C6_url_normalization "https://radarly.linkfluence.com/1.0/projects".toList).2
      (by decide)⟩⟩

/-- C2 counterexample: a client that has not authenticated yet and
whose quota is exhausted still performs a network call (the credential
grant to the token endpoint) before raising `RateReached`. -/
theorem C2_auth_call_counterexample :
    isReached stUnauthReached.rates (normalizeUrl apiVersion rootUrl "p") = true ∧
    (request stUnauthReached "GET" "p" envOk).1 = Except.error Exn.rateReached ∧
    (request stUnauthReached "GET" "p" envOk).2.2.filter isNetworkEvent ≠ [] :=
  ⟨by decide, rfl, by decide⟩

/-- C2 (amended): for an already authenticated client, whenever the
tracked remaining count for the normalized url is exhausted, `request`
raises `RateReached`, performs no network call (the trace holds only
the rate check) and leaves the state unchanged. -/
theorem C2_rate_reached_fails_fast (st : ApiState) (a : RadarlyAuth)
    (verb url : String) (env : RequestEnv)
    (hauth : st.auth = some a)
    (hrate : isReached st.rates (normalizeUrl apiVersion rootUrl url) = true) :
    (request st verb url env).1 = Except.error Exn.rateReached ∧
    (request st verb url env).2.2 = [Event.rateCheck (normalizeUrl apiVersion rootUrl url)] ∧
    (request st verb url env).2.1 = st := by
  simp [request, hauth, requestCore, hrate]

/-- C2 witness: the amended theorem applied to the authenticated client
with exhausted quota for `"p"`. -/
theorem C2_rate_reached_fails_fast_witness :
    stReachedAuthed.auth = some ⟨some "tok"⟩ ∧
    isReached stReachedAuthed.rates (normalizeUrl apiVersion rootUrl "p") = true ∧
    ((request stReachedAuthed "GET" "p" envOk).1 = Except.error Exn.rateReached ∧
     (request stReachedAuthed "GET" "p" envOk).2.2 =
       [Event.rateCheck (normalizeUrl apiVersion rootUrl "p")] ∧
     (request stReachedAuthed "GET" "p" envOk).2.1 = stReachedAuthed) :=
  ⟨rfl, by decide,
   C2_rate_reached_fails_fast stReachedAuthed ⟨some "tok"⟩ "GET" "p" envOk rfl (by decide)⟩

/-- C1 counterexample: with the autorefresh flag disabled, a first
response that is an expired-token HTTP error triggers no refresh at
all - the error propagates - contradicting the unconditional
one-refresh-one-retry claim. -/
theorem C1_no_autorefresh_counterexample :
    isHTTPError envExpiredRetryOk.firstResp.status = true ∧
    (dget (parseErrorResponse envExpiredRetryOk.firstResp) "error_type").getD (PyVal.str "")
      = PyVal.str "ExpiredTokenException" ∧
    ((request { stAuthed with autorefresh := false } "GET" "p" envExpiredRetryOk).2.2.count
      Event.refreshCall ≠ 1) ∧
    (request { stAuthed with autorefresh := false } "GET" "p" envExpiredRetryOk).1 =
      Except.error (Exn.httpError 403) :=
  ⟨by decide, by decide, by decide, rfl⟩

/-- C1 (amended): for an authenticated client below its rate limit
whose first response is an HTTP error, (1) when the parsed error type
is `ExpiredTokenException` and autorefresh is enabled, `request`
performs exactly one refresh and exactly one retry (the trace is rate
check, resource call, refresh call, resource call) and a second HTTP
error on the retried call propagates as that error; (2) when the error
is not an expired-token-with-autorefresh case, the first error is
surfaced as-is with no refresh and no retry. -/
theorem C1_expired_token_single_retry (st : ApiState) (a : RadarlyAuth)
    (verb url : String) (env : RequestEnv)
    (hauth : st.auth = some a)
    (hrate : isReached st.rates (normalizeUrl apiVersion rootUrl url) = false)
    (herr : isHTTPError env.firstResp.status = true) :
    ((dget (parseErrorResponse env.firstResp) "error_type").getD (PyVal.str "")
        = PyVal.str "ExpiredTokenException" → st.autorefresh = true →
      (request st verb url env).2.2 =
        [Event.rateCheck (normalizeUrl apiVersion rootUrl url),
         Event.resourceCall verb (normalizeUrl apiVersion rootUrl url),
         Event.refreshCall,
         Event.resourceCall verb (normalizeUrl apiVersion rootUrl url)] ∧
      (isHTTPError env.retryResp.status = true →
        (request st verb url env).1 = Except.error (Exn.httpError env.retryResp.status))) ∧
    (¬ ((dget (parseErrorResponse env.firstResp) "error_type").getD (PyVal.str "")
          = PyVal.str "ExpiredTokenException" ∧ st.autorefresh = true) →
      (request st verb url env).1 = Except.error (Exn.httpError env.firstResp.status) ∧
      (request st verb url env).2.2 =
        [Event.rateCheck (normalizeUrl apiVersion rootUrl url),
         Event.resourceCall verb (normalizeUrl apiVersion rootUrl url)]) := by
  constructor
  · intro het har
    cases hretry : isHTTPError env.retryResp.status <;>
      simp [request, hauth, requestCore, hrate, herr, het, har, hretry]
  · intro hne
    simp [request, hauth, requestCore, hrate, herr, hne]

/-- C1 witness: the amended theorem applied to the authenticated
client, with an expired-token first response and a retry that fails
again with the same error. -/
theorem C1_expired_token_single_retry_witness :
    stAuthed.auth = some ⟨some "tok"⟩ ∧
    isReached stAuthed.rates (normalizeUrl apiVersion rootUrl "p") = false ∧
    isHTTPError envExpiredRetryFail.firstResp.status = true ∧
    (dget (parseErrorResponse envExpiredRetryFail.firstResp) "error_type").getD (PyVal.str "")
      = PyVal.str "ExpiredTokenException" ∧
    stAuthed.autorefresh = true ∧
    isHTTPError envExpiredRetryFail.retryResp.status = true ∧
    ((request stAuthed "GET" "p" envExpiredRetryFail).2.2 =
      [Event.rateCheck (normalizeUrl apiVersion rootUrl "p"),
       Event.resourceCall "GET" (normalizeUrl apiVersion rootUrl "p"),
       Event.refreshCall,
       Event.resourceCall "GET" (normalizeUrl apiVersion rootUrl "p")] ∧
     (request stAuthed "GET" "p" envExpiredRetryFail).1 =
       Except.error (Exn.httpError envExpiredRetryFail.retryResp.status)) :=
  ⟨rfl, by decide, by decide, by decide, rfl, by decide,
   ((C1_expired_token_single_retry stAuthed ⟨some "tok"⟩ "GET" "p" envExpiredRetryFail
       rfl (by decide) (by decide)).1 (by decide) rfl).1,
   ((C1_expired_token_single_retry stAuthed ⟨some "tok"⟩ "GET" "p" envExpiredRetryFail
       rfl (by decide) (by decide)).1 (by decide) rfl).2 (by decide)⟩

/-- C5: on the expired-token refresh-and-retry path, the rate limit is
checked exactly once, as the very first step, before the first resource
call - the retried call (the trace holds two resource calls) is issued
without a second check. -/
theorem C5_no_rate_check_on_retry (st : ApiState) (a : RadarlyAuth)
    (verb url : String) (env : RequestEnv)
    (hauth : st.auth = some a)
    (hrate : isReached st.rates (normalizeUrl apiVersion rootUrl url) = false)
    (herr : isHTTPError env.firstResp.status = true)
    (het : (dget (parseErrorResponse env.firstResp) "error_type").getD (PyVal.str "")
      = PyVal.str "ExpiredTokenException")
    (har : st.autorefresh = true) :
    (request st verb url env).2.2.countP (fun e => isRateCheckEv e) = 1 ∧
    (request st verb url env).2.2.head? =
      some (Event.rateCheck (normalizeUrl apiVersion rootUrl url)) ∧
    (request st verb url env).2.2.countP (fun e => isResourceCallEv e) = 2 := by
  have hev : (request st verb url env).2.2 =
      [Event.rateCheck (normalizeUrl apiVersion rootUrl url),
       Event.resourceCall verb (normalizeUrl apiVersion rootUrl url),
       Event.refreshCall,
       Event.resourceCall verb (normalizeUrl apiVersion rootUrl url)] := by
    cases hretry : isHTTPError env.retryResp.status <;>
      simp [request, hauth, requestCore, hrate, herr, het, har, hretry]
  rw [hev]
  refine ⟨?_, rfl, ?_⟩ <;>
    simp [List.countP_cons, isRateCheckEv, isResourceCallEv]

/-- C5 witness: the theorem applied to the authenticated client with an
expired-token first response. -/
theorem C5_no_rate_check_on_retry_witness :
    stAuthed.auth = some ⟨some "tok"⟩ ∧
    isReached stAuthed.rates (normalizeUrl apiVersion rootUrl "p") = false ∧
    isHTTPError envExpiredRetryOk.firstResp.status = true ∧
    (dget (parseErrorResponse envExpiredRetryOk.firstResp) "error_type").getD (PyVal.str "")
      = PyVal.str "ExpiredTokenException" ∧
    stAuthed.autorefresh = true ∧
    ((request stAuthed "GET" "p" envExpiredRetryOk).2.2.countP (fun e => isRateCheckEv e) = 1 ∧
     (request stAuthed "GET" "p" envExpiredRetryOk).2.2.head? =
       some (Event.rateCheck (normalizeUrl apiVersion rootUrl "p")) ∧
     (request stAuthed "GET" "p" envExpiredRetryOk).2.2.countP (fun e => isResourceCallEv e) = 2) :=
  ⟨rfl, by decide, by decide, by decide, rfl,
   C5_no_rate_check_on_retry stAuthed ⟨some "tok"⟩ "GET" "p" envExpiredRetryOk
     rfl (by decide) (by decide) (by decide) rfl⟩

theorem authenticate_rates (st : ApiState) (r : TokenResponse) :
    (authenticate st r).1.rates = st.rates := by
  unfold authenticate
  split <;> rfl

theorem refresh_rates (st : ApiState) (r : TokenResponse) (t : Nat) :
    (refresh st r t).rates = st.rates := rfl

theorem setRate_nonneg {rates : List (String × Int)} {u : String} {n : Int}
    (h : ratesNonneg rates = true) (hn : 0 ≤ n) :
    ratesNonneg (setRate rates u n) = true := by
  induction rates with
  | nil => simpa [setRate, ratesNonneg] using hn
  | cons p tl ih =>
    simp only [ratesNonneg, List.all_cons, Bool.and_eq_true] at h
    rw [setRate]
    split
    · simp only [ratesNonneg, List.all_cons, Bool.and_eq_true]
      exact ⟨decide_eq_true hn, h.2⟩
    · simp only [ratesNonneg, List.all_cons, Bool.and_eq_true]
      exact ⟨h.1, ih h.2⟩

theorem ratesUpdate_nonneg {rates : List (String × Int)} {url : String} {h : Headers}
    (hr : ratesNonneg rates = true) (hw : headersWF h = true) :
    ratesNonneg (ratesUpdate rates url h) = true := by
  unfold ratesUpdate
  unfold headersWF at hw
  cases hu : h.used with
  | none => cases hm : h.max <;> exact hr
  | some u =>
    cases hm : h.max with
    | none => exact hr
    | some m =>
      rw [hu, hm] at hw
      have hle : u ≤ m := of_decide_eq_true hw
      exact setRate_nonneg hr (by omega)

theorem requestCore_rates_cases (st : ApiState) (verb nurl : String)
    (env : RequestEnv) (ev : List Event) :
    (requestCore st verb nurl env ev).2.1.rates = st.rates ∨
    (requestCore st verb nurl env ev).2.1.rates =
      ratesUpdate st.rates nurl env.firstResp.headers ∨
    (requestCore st verb nurl env ev).2.1.rates =
      ratesUpdate st.rates nurl env.retryResp.headers := by
  unfold requestCore
  split
  · exact Or.inl rfl
  · split
    · split
      · split
        · exact Or.inl rfl
        · exact Or.inr (Or.inr rfl)
      · exact Or.inl rfl
    · exact Or.inr (Or.inl rfl)

theorem request_rates_cases (st : ApiState) (verb url : String) (env : RequestEnv) :
    (request st verb url env).2.1.rates = st.rates ∨
    (request st verb url env).2.1.rates =
      ratesUpdate st.rates (normalizeUrl apiVersion rootUrl url) env.firstResp.headers ∨
    (request st verb url env).2.1.rates =
      ratesUpdate st.rates (normalizeUrl apiVersion rootUrl url) env.retryResp.headers := by
  unfold request
  cases hauth : st.auth with
  | some a =>
    exact requestCore_rates_cases st verb (normalizeUrl apiVersion rootUrl url) env []
  | none =>
    rcases ha : authenticate st env.authResp with ⟨st1, e⟩
    have hst1 : st1.rates = st.rates := by
      have := authenticate_rates st env.authResp
      rw [ha] at this
      exact this
    cases e with
    | some err => simpa using Or.inl hst1
    | none =>
      rw [← hst1]
      exact requestCore_rates_cases st1 verb (normalizeUrl apiVersion rootUrl url) env
        [Event.authCall]

theorem applyOp_nonneg {st : ApiState} {op : Op}
    (h : ratesNonneg st.rates = true) (hw : opWF op = true) :
    ratesNonneg (applyOp st op).rates = true := by
  cases op with
  | doRequest v u env =>
    rw [opWF, Bool.and_eq_true] at hw
    rcases request_rates_cases st v u env with hc | hc | hc <;> rw [applyOp, hc]
    · exact h
    · exact ratesUpdate_nonneg h hw.1
    · exact ratesUpdate_nonneg h hw.2
  | doAuthenticate r => rw [applyOp, authenticate_rates]; exact h
  | doRefresh r t => rw [applyOp, refresh_rates]; exact h

/-- C8: rate counters never go negative. In every state reachable by a
sequence of operations whose response headers are consistent (usage not
above the maximum), every tracked remaining count stays non-negative:
the dispatcher never decrements - it rejects with `RateReached` on an
exhausted quota and otherwise only overwrites counters from response
headers. -/
theorem C8_rates_never_negative (st : ApiState) (ops : List Op)
    (h0 : ratesNonneg st.rates = true)
    (hwf : ops.all opWF = true) :
    ratesNonneg (runOps st ops).rates = true := by
  induction ops generalizing st with
  | nil => exact h0
  | cons op tl ih =>
    rw [List.all_cons, Bool.and_eq_true] at hwf
    exact ih _ (applyOp_nonneg h0 hwf.1) hwf.2

/-- C8 witness: the theorem applied to the fresh authenticated client
and one successful request whose headers report 5 of 10 requests used. -/
theorem C8_rates_never_negative_witness :
    ratesNonneg stAuthed.rates = true ∧
    ([Op.doRequest "GET" "p" envOk].all opWF = true) ∧
    ratesNonneg (runOps stAuthed [Op.doRequest "GET" "p" envOk]).rates = true :=
  ⟨by decide, by decide,
   C8_rates_never_negative stAuthed [Op.doRequest "GET" "p" envOk] (by decide) (by decide)⟩

end Radarly
